import Mathlib

/-!
# Verification of the saturnacademy trade-copier core

A shallow embedding, in Lean 4, of the pure parts of the copier agent in
`copier-desktop/src-tauri/src/copier/`.  Rust `f64` values are modelled as
rationals (`ℚ`), `i64`/`i32` as `Int`, `u32`/`usize` as `Nat`,
`HashSet<String>` / `HashMap<K,V>` as duplicate-free lists / association
lists, and `chrono::Utc::now()` as an explicit time parameter.  Filesystem
and logging effects are dropped; where control flow depends on an I/O
outcome, the outcome is an explicit parameter.
-/

set_option maxHeartbeats 1000000

namespace Saturn

/-! ## Rust numeric/formatting helpers -/

/-- Rust `f64::round`: round to the nearest integer, halfway cases away
from zero. -/
def rustRound (q : ℚ) : ℤ :=
  if 0 ≤ q then ⌊q + 1/2⌋ else ⌈q - 1/2⌉

/-- Rust `format!` fragment `{:.2}` for a nonnegative value: fixed two
decimal places.  (Exact on the inputs reached by the theorems below; the
halfway tie-break of Rust float formatting is irrelevant there.) -/
def fmtDec2 (q : ℚ) : String :=
  let n : ℤ := rustRound (q * 100)
  let ip : ℤ := n / 100
  let fr : ℤ := n % 100
  let frs : String := if fr < 10 then "0" ++ toString fr else toString fr
  s!"{ip}.{frs}"

/-- Rust `format!` fragment `{:.1}` for a nonnegative value: fixed one
decimal place. -/
def fmtDec1 (q : ℚ) : String :=
  let n : ℤ := rustRound (q * 10)
  let ip : ℤ := n / 10
  let fr : ℤ := n % 10
  s!"{ip}.{fr}"

/-- Rust `format!` fragment `{:.0}`: round to integer. -/
def fmtDec0 (q : ℚ) : String :=
  toString (rustRound q)

/-- Rust `Display` (`{}`) of an `f64`.  Exact for integral values (Rust
prints `3` for `3.0`); for non-integral values this model prints the
rational, which no theorem below evaluates. -/
def fmtF64 (q : ℚ) : String :=
  if q.den = 1 then toString q.num else toString q

/-! ## Idempotency store — `copier/idempotency.rs` -/

/-- Rust `MAX_KEYS_IN_MEMORY` — cap on the idempotency cache. -/
def MAX_KEYS_IN_MEMORY : Nat := 10000

/-- Rust `IdempotencyCache`: FIFO queue of keys plus a membership set.  The
Rust `VecDeque<String>` is a list (head = oldest); the `HashSet<String>`
is a list used only up to membership. -/
structure IdempotencyCache where
  keys_order : List String
  keys_set : List String
deriving Repr, DecidableEq

namespace IdempotencyCache

/-- Rust `IdempotencyCache::new`. -/
def new : IdempotencyCache := ⟨[], []⟩

/-- Rust `IdempotencyCache::from_keys` (the `HashSet` drops duplicates). -/
def from_keys (keys : List String) : IdempotencyCache :=
  ⟨keys, keys.dedup⟩

/-- Rust `IdempotencyCache::contains`. -/
def contains (c : IdempotencyCache) (key : String) : Bool :=
  decide (key ∈ c.keys_set)

/-- The `while self.keys_set.len() >= MAX_KEYS_IN_MEMORY` eviction loop at
the top of `IdempotencyCache::insert`: pop the front of `keys_order` and
remove it from `keys_set` until under cap (or the queue is empty). -/
def pruneOldest : List String → List String → List String × List String
  | [], s => ([], s)
  | o :: rest, s =>
      if MAX_KEYS_IN_MEMORY ≤ s.length then pruneOldest rest (s.erase o)
      else (o :: rest, s)

/-- Rust `IdempotencyCache::insert`: evict while at cap, then insert into the
set; append to the queue tail only if the key was newly inserted. -/
def insert (c : IdempotencyCache) (key : String) : IdempotencyCache :=
  let p := pruneOldest c.keys_order c.keys_set
  if key ∈ p.2 then ⟨p.1, p.2⟩
  else ⟨p.1 ++ [key], p.2 ++ [key]⟩

/-- Rust `IdempotencyCache::clear`. -/
def clear (_c : IdempotencyCache) : IdempotencyCache := ⟨[], []⟩

/-- Rust `IdempotencyCache::to_vec`. -/
def to_vec (c : IdempotencyCache) : List String := c.keys_order

/-- Rust `IdempotencyCache::len`. -/
def len (c : IdempotencyCache) : Nat := c.keys_set.length

end IdempotencyCache

/-- Rust `is_event_processed` (the in-memory part: a lookup in the global
cache, here passed explicitly). -/
def is_event_processed (c : IdempotencyCache) (idempotency_key : String) : Bool :=
  c.contains idempotency_key

/-- Rust `mark_event_processed` (in-memory part; the best-effort disk write is
an effect outside the model). -/
def mark_event_processed (c : IdempotencyCache) (idempotency_key : String) :
    IdempotencyCache :=
  c.insert idempotency_key

/-- Rust `generate_idempotency_key`. -/
def generate_idempotency_key (event_type : String) (ticket : Int)
    (deal_id : Int) (symbol : String) (timestamp : String) : String :=
  s!"{event_type}:{ticket}:{deal_id}:{symbol}:{timestamp}"

/-- Rust `generate_modify_idempotency_key`. -/
def generate_modify_idempotency_key (position_id : Int) (symbol : String)
    (timestamp : String) : String :=
  s!"modify:{position_id}:{symbol}:{timestamp}"

/-! ## Data model — `copier/mod.rs` -/

/-- Rust `TradeEvent` (`mod.rs`): the wire record emitted by the master EA. -/
structure TradeEvent where
  event_type : String
  ticket : Int
  deal_id : Option Int
  symbol : String
  direction : String
  lots : ℚ
  price : ℚ
  sl : Option ℚ
  tp : Option ℚ
  timestamp : String
  sl_distance_points : Option ℚ
  tp_distance_points : Option ℚ
  master_balance : Option ℚ
  master_equity : Option ℚ
  tick_value : Option ℚ
  contract_size : Option ℚ
  digits : Option Int
  point : Option ℚ
deriving Repr, DecidableEq

/-- Rust `SymbolMapping` (`mod.rs`). -/
structure SymbolMapping where
  master_symbol : String
  receiver_symbol : String
  is_enabled : Bool
deriving Repr, DecidableEq

/-- Rust `MasterConfig` (`mod.rs`). -/
structure MasterConfig where
  account_id : String
  account_number : String
  broker : String
  terminal_id : String
deriving Repr, DecidableEq

/-- Rust `ReceiverConfig` (`mod.rs`). -/
structure ReceiverConfig where
  account_id : String
  account_number : String
  broker : String
  terminal_id : String
  risk_mode : String
  risk_value : ℚ
  max_slippage_pips : ℚ
  max_daily_loss_r : Option ℚ
  prop_firm_safe_mode : Bool
  symbol_mappings : List SymbolMapping
deriving Repr, DecidableEq

/-- Rust `CopierConfig` (`mod.rs`). -/
structure CopierConfig where
  version : Int
  config_hash : String
  master : MasterConfig
  receivers : List ReceiverConfig
deriving Repr, DecidableEq

/-! ## File-watch ingestor — `copier/file_watcher.rs`

`process_event_file` performs a sequence of externally visible actions
(marking the idempotency key, invoking the fan-out engine via
`event_processor::process_event`, deleting the source file).  We embed it
as a trace-producing function: the I/O outcomes it branches on (the file
read and the JSON parse) are oracle parameters, and the returned list is
the ordered trace of visible actions on that path. -/

/-- One externally visible action of `process_event_file`. -/
inductive IngestAct where
  /-- Rust `idempotency::mark_event_processed(&idempotency_key)` -/
  | markProcessed (key : String)
  /-- Rust `event_processor::process_event(&event, &config, ...)` — the fan-out -/
  | invokeFanOut
  /-- Rust `std::fs::remove_file(path)` on the event file -/
  | deleteFile
deriving Repr, DecidableEq

/-- Rust `process_event_file` (`file_watcher.rs`), as the trace of visible
actions.  Parameters: `readResult` is the outcome of
`read_file_with_retry` (`none` = all retries failed), `parseResult` the
outcome of `serde_json::from_str::<TradeEvent>` on that content, `cache`
the idempotency store, `is_running`/`config` the relevant fields of the
locked `CopierState`. -/
def process_event_file (readResult : Option String)
    (parseResult : Option TradeEvent) (cache : IdempotencyCache)
    (is_running : Bool) (config : Option CopierConfig) : List IngestAct :=
  match readResult with
  | none => []
  | some _content =>
    match parseResult with
    | none => [.deleteFile]
    | some event =>
      let idempotency_key := generate_idempotency_key event.event_type
        event.ticket (event.deal_id.getD 0) event.symbol event.timestamp
      if is_event_processed cache idempotency_key then [.deleteFile]
      else if !is_running then []
      else
        match config with
        | none => []
        | some _c => [.markProcessed idempotency_key, .invokeFanOut, .deleteFile]

/-! ## Execution queue — `copier/execution_queue.rs` -/

/-- Rust `ExecutionStatus`. -/
inductive ExecutionStatus where
  | Pending
  | InProgress
  | Completed
  | Failed
  | MaxRetriesExceeded
deriving Repr, DecidableEq

/-- Rust `QueuedExecution`. -/
structure QueuedExecution where
  id : String
  event : TradeEvent
  receiver_id : String
  receiver_terminal_id : String
  attempts : Nat
  max_attempts : Nat
  next_retry_at : Int
  created_at : String
  status : ExecutionStatus
  last_error : Option String
deriving Repr, DecidableEq

/-- Rust `ExecutionResult`. -/
structure ExecutionResult where
  id : String
  success : Bool
  executed_price : Option ℚ
  slippage_pips : Option ℚ
  receiver_position_id : Option Int
  error_message : Option String
  executed_at : String
  attempts : Nat
deriving Repr, DecidableEq

/-- Rust `DEFAULT_MAX_ATTEMPTS`. -/
def DEFAULT_MAX_ATTEMPTS : Nat := 3

/-- Rust `MAX_COMPLETED_HISTORY`. -/
def MAX_COMPLETED_HISTORY : Nat := 1000

/-- Rust `ExecutionQueue`: `pending` is the `VecDeque` (head = front),
`in_progress` the `HashMap<String, QueuedExecution>` as an association
list, `completed` the bounded history.  The persistence path is dropped
(disk writes are effects); `max_completed_history` is kept. -/
structure ExecutionQueue where
  pending : List QueuedExecution
  in_progress : List (String × QueuedExecution)
  completed : List ExecutionResult
  max_completed_history : Nat
deriving Repr, DecidableEq

namespace ExecutionQueue

/-- An empty queue as built by `ExecutionQueue::new` over empty disk
state. -/
def empty : ExecutionQueue := ⟨[], [], [], MAX_COMPLETED_HISTORY⟩

/-- Rust `ExecutionQueue::enqueue`.  The fresh `Uuid` and both `chrono` clock
reads are explicit parameters (`id`, `now`, `nowStr`). -/
def enqueue (q : ExecutionQueue) (event : TradeEvent) (receiver_id : String)
    (receiver_terminal_id : String) (id : String) (now : Int)
    (nowStr : String) : ExecutionQueue :=
  let execution : QueuedExecution :=
    { id := id
      event := event
      receiver_id := receiver_id
      receiver_terminal_id := receiver_terminal_id
      attempts := 0
      max_attempts := DEFAULT_MAX_ATTEMPTS
      next_retry_at := now
      created_at := nowStr
      status := .Pending
      last_error := none }
  { q with pending := q.pending ++ [execution] }

/-- Rust `ExecutionQueue::dequeue`: first pending entry with
`next_retry_at <= now`; increment `attempts`, move to `in_progress`. -/
def dequeue (q : ExecutionQueue) (now : Int) :
    Option QueuedExecution × ExecutionQueue :=
  match q.pending.findIdx? (fun e => decide (e.next_retry_at ≤ now)) with
  | none => (none, q)
  | some idx =>
    match q.pending[idx]? with
    | none => (none, q)
    | some e =>
      let e2 := { e with attempts := e.attempts + 1, status := .InProgress }
      (some e2,
        { q with pending := q.pending.eraseIdx idx
                 in_progress := q.in_progress ++ [(e2.id, e2)] })

/-- The `add_to_history` helper: push, then drop oldest entries while over
`max_completed_history` (the `while … remove(0)` loop collapses to a
front `drop`). -/
def add_to_history (completed : List ExecutionResult) (maxHist : Nat)
    (result : ExecutionResult) : List ExecutionResult :=
  let l := completed ++ [result]
  if maxHist < l.length then l.drop (l.length - maxHist) else l

/-- Rust `ExecutionQueue::complete`. -/
def complete (q : ExecutionQueue) (id : String) (result : ExecutionResult) :
    ExecutionQueue :=
  match q.in_progress.find? (fun p => p.1 == id) with
  | none => q
  | some _ =>
    { q with in_progress := q.in_progress.filter (fun p => !(p.1 == id))
             completed := add_to_history q.completed q.max_completed_history result }

/-- Rust `ExecutionQueue::fail`: on remaining attempts, back off
`2^attempts` seconds and requeue at the pending tail; otherwise mark
`MaxRetriesExceeded` and append a failed `ExecutionResult` to history.
`now`/`nowStr` are the two `chrono` clock reads. -/
def fail (q : ExecutionQueue) (id : String) (error : String) (now : Int)
    (nowStr : String) : ExecutionQueue :=
  match q.in_progress.find? (fun p => p.1 == id) with
  | none => q
  | some p =>
    let q1 := { q with in_progress := q.in_progress.filter (fun r => !(r.1 == id)) }
    let e : QueuedExecution := { p.2 with last_error := some error }
    if e.attempts < e.max_attempts then
      let backoff_secs : Int := (2 : Int) ^ e.attempts
      let e2 := { e with next_retry_at := now + backoff_secs, status := .Pending }
      { q1 with pending := q1.pending ++ [e2] }
    else
      let result : ExecutionResult :=
        { id := e.id
          success := false
          executed_price := none
          slippage_pips := none
          receiver_position_id := none
          error_message := some error
          executed_at := nowStr
          attempts := e.attempts }
      { q1 with completed := add_to_history q1.completed q1.max_completed_history result }

/-- The crash-recovery portion of `ExecutionQueue::load_from_disk`: after
the persisted `pending`/`in_progress`/history are parsed, every stale
in-progress entry is moved to the pending tail with status `Pending` and
`next_retry_at = now`, leaving `in_progress` empty. -/
def load_recover (pending : List QueuedExecution)
    (in_progress : List (String × QueuedExecution))
    (completed : List ExecutionResult) (now : Int) : ExecutionQueue :=
  { pending := pending ++ in_progress.map
      (fun p => { p.2 with status := .Pending, next_retry_at := now })
    in_progress := []
    completed := completed
    max_completed_history := MAX_COMPLETED_HISTORY }

end ExecutionQueue

/-! ## Safety ledger — `copier/safety.rs`

The global `SAFETY_STATE` (`HashMap<String, ReceiverSafetyState>` behind a
mutex) is threaded explicitly as an association list.  The
`last_reset_date` field, stored in Rust as a `%Y-%m-%d` string and always
consumed through `get_last_reset_date`/`set_last_reset_date`, is modelled
directly as the parsed trading day (`Option Int`, a day number); the
current trading day (`get_trading_day(Utc::now(), reset_hour)`) and the
`to_rfc3339` timestamp are explicit parameters `today`/`nowStr`. -/

/-- Rust `ReceiverSafetyState`. -/
structure ReceiverSafetyState where
  daily_pnl : ℚ
  trades_today : Int
  wins_today : Int
  losses_today : Int
  high_water_mark : ℚ
  current_equity : ℚ
  starting_balance : ℚ
  last_reset_date : Option Int
  is_safety_paused : Bool
  pause_reason : Option String
  consecutive_losses : Int
  last_updated : Option String
deriving Repr, DecidableEq

/-- Rust `ReceiverSafetyState::default()` (Rust `#[derive(Default)]`). -/
def ReceiverSafetyState.default : ReceiverSafetyState :=
  { daily_pnl := 0
    trades_today := 0
    wins_today := 0
    losses_today := 0
    high_water_mark := 0
    current_equity := 0
    starting_balance := 0
    last_reset_date := none
    is_safety_paused := false
    pause_reason := none
    consecutive_losses := 0
    last_updated := none }

/-- Rust `SafetyCheckResult`. -/
inductive SafetyCheckResult where
  | Allowed
  | Blocked (reason : String)
  | Warning (reason : String)
deriving Repr, DecidableEq

/-- Rust `SafetyConfig`. -/
structure SafetyConfig where
  max_daily_loss_amount : Option ℚ
  max_daily_loss_percent : Option ℚ
  max_drawdown_percent : Option ℚ
  trailing_drawdown_enabled : Bool
  min_equity : Option ℚ
  max_slippage_pips : ℚ
  max_trades_per_day : Option Int
  prop_firm_safe_mode : Bool
  max_consecutive_losses : Option Int
  daily_reset_hour_utc : Option Int
deriving Repr, DecidableEq

/-- Rust `SafetyConfig::default()` (the explicit `Default` impl). -/
def SafetyConfig.default : SafetyConfig :=
  { max_daily_loss_amount := none
    max_daily_loss_percent := some 3
    max_drawdown_percent := some 10
    trailing_drawdown_enabled := false
    min_equity := none
    max_slippage_pips := 3
    max_trades_per_day := none
    prop_firm_safe_mode := false
    max_consecutive_losses := none
    daily_reset_hour_utc := some 0 }

/-- The in-memory safety state map. -/
abbrev SafetyStates := List (String × ReceiverSafetyState)

/-- Rust `HashMap::get(receiver_id)` on the state map. -/
def lookupState (m : SafetyStates) (receiver_id : String) :
    Option ReceiverSafetyState :=
  (m.find? (fun p => p.1 == receiver_id)).map (fun p => p.2)

/-- Rust `HashMap` write-back of one receiver entry: replace in place if the
key is present, otherwise append (`entry().or_default()` / `insert`). -/
def storeState (m : SafetyStates) (receiver_id : String)
    (st : ReceiverSafetyState) : SafetyStates :=
  if (m.find? (fun p => p.1 == receiver_id)).isSome then
    m.map (fun p => if p.1 == receiver_id then (receiver_id, st) else p)
  else m ++ [(receiver_id, st)]

/-- Rust `get_receiver_state`: `states.get(id).cloned().unwrap_or_default()`. -/
def get_receiver_state (m : SafetyStates) (receiver_id : String) :
    ReceiverSafetyState :=
  (lookupState m receiver_id).getD ReceiverSafetyState.default

/-- Rust `get_trading_day`: before the reset hour the clock instant still
belongs to the previous trading day.  `date`/`hour` are the components of
`Utc::now()`; the day is a day number. -/
def get_trading_day (date : Int) (current_hour : Int) (reset_hour : Int) : Int :=
  if current_hour < reset_hour then date - 1 else date

/-- Rust `check_daily_reset`: if the receiver exists and its
`last_reset_date` differs from `today` (or is unset), zero the daily
counters, clear the pause, and stamp `today`. -/
def check_daily_reset (m : SafetyStates) (receiver_id : String) (today : Int)
    (nowStr : String) : SafetyStates :=
  match lookupState m receiver_id with
  | none => m
  | some st =>
    let needs_reset : Bool := match st.last_reset_date with
      | some last_date => last_date != today
      | none => true
    if needs_reset then
      storeState m receiver_id
        { st with daily_pnl := 0
                  trades_today := 0
                  wins_today := 0
                  losses_today := 0
                  last_reset_date := some today
                  is_safety_paused := false
                  pause_reason := none
                  consecutive_losses := 0
                  last_updated := some nowStr }
    else m

/-- Rust `initialize_receiver` (named `init_receiver` here): set the starting
balance if unset, update equity and high-water mark, stamp a reset date if
missing. -/
def init_receiver (m : SafetyStates) (receiver_id : String)
    (starting_balance : ℚ) (current_equity : ℚ) (today : Int)
    (nowStr : String) : SafetyStates :=
  let st := get_receiver_state m receiver_id
  let st1 := if st.starting_balance = 0 then
      { st with starting_balance := starting_balance } else st
  let st2 := { st1 with current_equity := current_equity }
  let st3 := if st2.high_water_mark < current_equity then
      { st2 with high_water_mark := current_equity } else st2
  let st4 := match st3.last_reset_date with
    | none => { st3 with last_reset_date := some today }
    | some _ => st3
  storeState m receiver_id { st4 with last_updated := some nowStr }

/-- Rust `update_equity`. -/
def update_equity (m : SafetyStates) (receiver_id : String) (equity : ℚ)
    (nowStr : String) : SafetyStates :=
  let st := get_receiver_state m receiver_id
  let st1 := { st with current_equity := equity }
  let st2 := if st1.high_water_mark < equity then
      { st1 with high_water_mark := equity } else st1
  storeState m receiver_id { st2 with last_updated := some nowStr }

/-- Rust `record_trade_result`. -/
def record_trade_result (m : SafetyStates) (receiver_id : String) (pnl : ℚ)
    (is_winner : Bool) (nowStr : String) : SafetyStates :=
  let st := get_receiver_state m receiver_id
  let st1 := { st with daily_pnl := st.daily_pnl + pnl
                       trades_today := st.trades_today + 1 }
  let st2 := if is_winner then
      { st1 with wins_today := st1.wins_today + 1, consecutive_losses := 0 }
    else
      { st1 with losses_today := st1.losses_today + 1
                 consecutive_losses := st1.consecutive_losses + 1 }
  storeState m receiver_id { st2 with last_updated := some nowStr }

/-- Rust `pause_receiver`. -/
def pause_receiver (m : SafetyStates) (receiver_id : String) (reason : String)
    (nowStr : String) : SafetyStates :=
  let st := get_receiver_state m receiver_id
  storeState m receiver_id
    { st with is_safety_paused := true
              pause_reason := some reason
              last_updated := some nowStr }

/-- Rust `unpause_receiver`. -/
def unpause_receiver (m : SafetyStates) (receiver_id : String)
    (nowStr : String) : SafetyStates :=
  match lookupState m receiver_id with
  | none => m
  | some st =>
    storeState m receiver_id
      { st with is_safety_paused := false
                pause_reason := none
                last_updated := some nowStr }

/-- Rust `check_trade_safety`: run the daily reset, then evaluate the safety
rules in order, returning the first verdict; the blocking rules that
pause the receiver also mutate the state map.  Returns the updated map
together with the `SafetyCheckResult`. -/
def check_trade_safety (m : SafetyStates) (receiver_id : String)
    (config : SafetyConfig) (starting_balance : ℚ) (today : Int)
    (nowStr : String) : SafetyStates × SafetyCheckResult :=
  let m1 := check_daily_reset m receiver_id today nowStr
  let state := get_receiver_state m1 receiver_id
  let effective_balance : ℚ :=
    if 0 < starting_balance then starting_balance
    else if 0 < state.starting_balance then state.starting_balance
    else 10000
  if state.is_safety_paused then
    (m1, .Blocked (state.pause_reason.getD "Safety limit reached"))
  else
    let step2 : Option (SafetyStates × SafetyCheckResult) :=
      match config.max_daily_loss_percent with
      | none => none
      | some max_loss_percent =>
        let loss_limit := effective_balance * (max_loss_percent / 100)
        if state.daily_pnl ≤ -loss_limit then
          let reason := "Daily loss limit reached: $" ++ fmtDec2 |state.daily_pnl|
            ++ " (" ++ fmtF64 max_loss_percent ++ "% of $"
            ++ fmtDec0 effective_balance ++ ")"
          some (pause_receiver m1 receiver_id reason nowStr, .Blocked reason)
        else if state.daily_pnl ≤ -(loss_limit * (4/5)) then
          some (m1, .Warning ("Approaching daily loss limit: $"
            ++ fmtDec2 |state.daily_pnl| ++ " of $" ++ fmtDec2 loss_limit))
        else none
    match step2 with
    | some r => r
    | none =>
      let step3 : Option (SafetyStates × SafetyCheckResult) :=
        match config.max_daily_loss_amount with
        | none => none
        | some max_loss_amount =>
          if state.daily_pnl ≤ -max_loss_amount then
            let reason := "Daily loss limit reached: $" ++ fmtDec2 |state.daily_pnl|
            some (pause_receiver m1 receiver_id reason nowStr, .Blocked reason)
          else none
      match step3 with
      | some r => r
      | none =>
        let step4 : Option (SafetyStates × SafetyCheckResult) :=
          match config.max_drawdown_percent with
          | none => none
          | some max_dd_percent =>
            if 0 < state.high_water_mark ∧ 0 < state.current_equity then
              let drawdown_percent :=
                (state.high_water_mark - state.current_equity)
                  / state.high_water_mark * 100
              if max_dd_percent ≤ drawdown_percent then
                let reason := "Maximum drawdown reached: "
                  ++ fmtDec1 drawdown_percent ++ "% (limit: "
                  ++ fmtF64 max_dd_percent ++ "%)"
                some (pause_receiver m1 receiver_id reason nowStr, .Blocked reason)
              else if max_dd_percent * (4/5) ≤ drawdown_percent then
                some (m1, .Warning ("Approaching drawdown limit: "
                  ++ fmtDec1 drawdown_percent ++ "% of "
                  ++ fmtF64 max_dd_percent ++ "%"))
              else none
            else none
        match step4 with
        | some r => r
        | none =>
          let step5 : Option (SafetyStates × SafetyCheckResult) :=
            match config.min_equity with
            | none => none
            | some min_equity =>
              if 0 < state.current_equity ∧ state.current_equity < min_equity then
                let reason := "Below minimum equity: $"
                  ++ fmtDec2 state.current_equity ++ " (minimum: $"
                  ++ fmtDec2 min_equity ++ ")"
                some (pause_receiver m1 receiver_id reason nowStr, .Blocked reason)
              else none
          match step5 with
          | some r => r
          | none =>
            let step6 : Option (SafetyStates × SafetyCheckResult) :=
              match config.max_trades_per_day with
              | none => none
              | some max_trades =>
                if max_trades ≤ state.trades_today then
                  some (m1, .Blocked ("Maximum daily trades reached: "
                    ++ toString state.trades_today ++ " (limit: "
                    ++ toString max_trades ++ ")"))
                else none
            match step6 with
            | some r => r
            | none =>
              if config.prop_firm_safe_mode then
                let max_consecutive := config.max_consecutive_losses.getD 3
                if max_consecutive ≤ state.consecutive_losses then
                  (m1, .Warning (toString state.consecutive_losses
                    ++ " consecutive losses - consider pausing"))
                else (m1, .Allowed)
              else (m1, .Allowed)

/-! ## Lot calculator — `copier/lot_calculator.rs` -/

/-- Rust `AccountInfo`. -/
structure AccountInfo where
  balance : ℚ
  equity : ℚ
  currency : String
  leverage : Int
deriving Repr, DecidableEq

/-- Rust `SymbolType`. -/
inductive SymbolType where
  | Forex
  | Index
  | Cfd
  | Commodity
  | Crypto
deriving Repr, DecidableEq

/-- Rust `SymbolInfo`. -/
structure SymbolInfo where
  tick_value : ℚ
  tick_size : ℚ
  contract_size : ℚ
  digits : Int
  point : ℚ
  symbol_type : SymbolType
deriving Repr, DecidableEq

/-- Rust `SymbolInfo::default()`. -/
def SymbolInfo.default : SymbolInfo :=
  { tick_value := 10
    tick_size := 1/100000
    contract_size := 100000
    digits := 5
    point := 1/100000
    symbol_type := .Forex }

/-- Rust `round_lots`: round to the nearest 0.01 (Rust `f64::round`, halfway
away from zero). -/
def round_lots (lots : ℚ) : ℚ :=
  (rustRound (lots * 100) : ℚ) / 100

/-- Rust `calculate_lots_from_risk`. -/
def calculate_lots_from_risk (risk_amount : ℚ) (price : ℚ) (stop_loss : ℚ)
    (symbol_info : SymbolInfo) : ℚ :=
  let sl_distance := |price - stop_loss|
  if sl_distance ≤ 0 then (1 : ℚ)/100
  else
    let value_per_lot : ℚ :=
      match symbol_info.symbol_type with
      | .Index =>
        let sl_points := sl_distance / symbol_info.point
        sl_points * symbol_info.tick_value
      | .Cfd | .Commodity =>
        let sl_ticks := sl_distance / symbol_info.tick_size
        sl_ticks * symbol_info.tick_value
      | .Crypto =>
        let sl_ticks := sl_distance / symbol_info.tick_size
        sl_ticks * symbol_info.tick_value
      | .Forex =>
        let sl_points := sl_distance / symbol_info.point
        let points_per_pip : ℚ :=
          if symbol_info.digits = 5 ∨ symbol_info.digits = 3 then 10 else 1
        sl_points / points_per_pip * symbol_info.tick_value
    if value_per_lot ≤ 0 then (1 : ℚ)/100
    else
      let calculated_lots := risk_amount / value_per_lot
      round_lots (max calculated_lots (1/100))

/-- Rust `calculate_lots`: dispatch on the risk mode string. -/
def calculate_lots (risk_mode : String) (risk_value : ℚ) (master_lots : ℚ)
    (price : ℚ) (sl : Option ℚ) (master_balance : Option ℚ)
    (receiver_account : Option AccountInfo) (symbol_info : Option SymbolInfo) :
    ℚ :=
  let info := symbol_info.getD SymbolInfo.default
  match risk_mode with
  | "fixed_lot" => round_lots risk_value
  | "lot_multiplier" => round_lots (master_lots * risk_value)
  | "balance_multiplier" =>
    match master_balance, receiver_account with
    | some m_balance, some r_account =>
      if 0 < m_balance then
        let bal_factor := r_account.balance / m_balance
        round_lots (max (master_lots * bal_factor * risk_value) (1/100))
      else round_lots master_lots
    | _, _ => round_lots master_lots
  | "risk_percent" =>
    match sl, receiver_account with
    | some stop_loss, some r_account =>
      let risk_amount := r_account.balance * (risk_value / 100)
      calculate_lots_from_risk risk_amount price stop_loss info
    | _, _ => round_lots master_lots
  | "risk_dollar" =>
    match sl with
    | some stop_loss => calculate_lots_from_risk risk_value price stop_loss info
    | none => round_lots master_lots
  | "intent" =>
    match sl, receiver_account with
    | some stop_loss, some _r_account =>
      calculate_lots_from_risk risk_value price stop_loss info
    | _, _ => round_lots master_lots
  | "mirror" => round_lots master_lots
  | _ => round_lots master_lots

/-- Rust `apply_max_lot_limit`. -/
def apply_max_lot_limit (lots : ℚ) (max_lots : Option ℚ) : ℚ :=
  match max_lots with
  | some m => if m < lots then m else lots
  | none => lots

/-- Rust `apply_min_lot_limit`. -/
def apply_min_lot_limit (lots : ℚ) (min_lots : Option ℚ) : ℚ :=
  let m := min_lots.getD (1/100)
  if lots < m then m else lots

/-! ## Retry classification — `copier/trade_executor.rs` -/

/-- The `retryable_patterns` array of `is_retryable_error`. -/
def retryable_patterns : List String :=
  ["timeout", "busy", "try again", "connection", "temporary", "requote",
   "off quotes", "market closed", "no prices", "trade context",
   "10004", "10006", "10008", "10021"]

/-- Rust `str::contains` on the lowered message: substring test, modelled
as `List.IsInfix` on the character lists. -/
def contains_sub (hay needle : String) : Bool :=
  decide (needle.data <:+: hay.data)

/-- Rust `str::to_lowercase`, modelled as a character-wise `Char.toLower`
map (the patterns and messages of interest are ASCII, where the two
agree). -/
def str_to_lower (s : String) : String :=
  String.mk (s.data.map Char.toLower)

/-- Rust `is_retryable_error`: lowercase the message, then look for any of
the retryable patterns. -/
def is_retryable_error (error : String) : Bool :=
  let error_lower := str_to_lower error
  retryable_patterns.any (fun p => contains_sub error_lower p)

/-! ## Position sync — `copier/position_sync.rs` -/

/-- Rust `MasterPosition`. -/
structure MasterPosition where
  position_id : Int
  symbol : String
  direction : String
  volume : ℚ
  open_price : ℚ
  sl : ℚ
  tp : ℚ
  sl_distance_points : Option ℚ
  tp_distance_points : Option ℚ
deriving Repr, DecidableEq

/-- Rust `ReceiverPosition`. -/
structure ReceiverPosition where
  position_id : Int
  master_position_id : Int
  symbol : String
  direction : String
  volume : ℚ
  sl : Option ℚ
  tp : Option ℚ
deriving Repr, DecidableEq

/-- Rust `DiscrepancyType`. -/
inductive DiscrepancyType where
  | MissingOnReceiver
  | OrphanedOnReceiver
  | VolumeMismatch
  | DirectionMismatch
  | SLMismatch
  | TPMismatch
deriving Repr, DecidableEq

/-- Rust `PositionDiscrepancy`. -/
structure PositionDiscrepancy where
  discrepancy_type : DiscrepancyType
  master_position : Option MasterPosition
  receiver_id : String
  receiver_position : Option ReceiverPosition
  suggested_action : String
deriving Repr, DecidableEq

/-- Rust `SL_TP_TOLERANCE` inside `find_discrepancies`. -/
def SL_TP_TOLERANCE : ℚ := 1/10000

/-- The per-master-position body of the first loop of
`find_discrepancies`: join on `master_position_id`, then push the
missing / volume / direction / SL / TP discrepancies in order. -/
def discrepancies_for_master (receiver_positions : List ReceiverPosition)
    (receiver_id : String) (master_pos : MasterPosition) :
    List PositionDiscrepancy :=
  match receiver_positions.find?
      (fun r => r.master_position_id == master_pos.position_id) with
  | none =>
    [{ discrepancy_type := .MissingOnReceiver
       master_position := some master_pos
       receiver_id := receiver_id
       receiver_position := none
       suggested_action := "Open " ++ master_pos.symbol ++ " "
         ++ master_pos.direction ++ " " ++ fmtF64 master_pos.volume
         ++ " lots on receiver" }]
  | some recv =>
    let volume_diff := |master_pos.volume - recv.volume|
    (if master_pos.volume * (1/10) < volume_diff then
      [{ discrepancy_type := .VolumeMismatch
         master_position := some master_pos
         receiver_id := receiver_id
         receiver_position := some recv
         suggested_action := "Adjust receiver volume from "
           ++ fmtF64 recv.volume ++ " to " ++ fmtF64 master_pos.volume }]
     else []) ++
    (if master_pos.direction ≠ recv.direction then
      [{ discrepancy_type := .DirectionMismatch
         master_position := some master_pos
         receiver_id := receiver_id
         receiver_position := some recv
         suggested_action :=
           "Close receiver position and re-open with correct direction" }]
     else []) ++
    (if 0 < master_pos.sl then
      match recv.sl with
      | some recv_sl =>
        if SL_TP_TOLERANCE < |master_pos.sl - recv_sl| then
          [{ discrepancy_type := .SLMismatch
             master_position := some master_pos
             receiver_id := receiver_id
             receiver_position := some recv
             suggested_action := "Update receiver SL from " ++ fmtF64 recv_sl
               ++ " to " ++ fmtF64 master_pos.sl }]
        else []
      | none =>
        [{ discrepancy_type := .SLMismatch
           master_position := some master_pos
           receiver_id := receiver_id
           receiver_position := some recv
           suggested_action := "Set receiver SL to " ++ fmtF64 master_pos.sl }]
     else []) ++
    (if 0 < master_pos.tp then
      match recv.tp with
      | some recv_tp =>
        if SL_TP_TOLERANCE < |master_pos.tp - recv_tp| then
          [{ discrepancy_type := .TPMismatch
             master_position := some master_pos
             receiver_id := receiver_id
             receiver_position := some recv
             suggested_action := "Update receiver TP from " ++ fmtF64 recv_tp
               ++ " to " ++ fmtF64 master_pos.tp }]
        else []
      | none =>
        [{ discrepancy_type := .TPMismatch
           master_position := some master_pos
           receiver_id := receiver_id
           receiver_position := some recv
           suggested_action := "Set receiver TP to " ++ fmtF64 master_pos.tp }]
     else [])

/-- Rust `find_discrepancies`: the first loop over master positions, then the
orphan sweep over receiver positions. -/
def find_discrepancies (master_positions : List MasterPosition)
    (receiver_positions : List ReceiverPosition) (receiver_id : String) :
    List PositionDiscrepancy :=
  (master_positions.flatMap
    (discrepancies_for_master receiver_positions receiver_id)) ++
  ((receiver_positions.filter (fun recv_pos =>
      !(master_positions.any
          (fun m => m.position_id == recv_pos.master_position_id)))).map
    (fun recv_pos =>
      { discrepancy_type := .OrphanedOnReceiver
        master_position := none
        receiver_id := receiver_id
        receiver_position := some recv_pos
        suggested_action := "Close orphaned receiver position "
          ++ toString recv_pos.position_id ++ " (master position closed)" }))

/-- Rust `SyncCommand`. -/
structure SyncCommand where
  command_type : String
  position_id : Option Int
  master_position_id : Option Int
  symbol : Option String
  direction : Option String
  volume : Option ℚ
  sl : Option ℚ
  tp : Option ℚ
  timestamp : String
deriving Repr, DecidableEq

namespace SyncCommand

/-- Rust `SyncCommand::open_position` (clock read as parameter `ts`). -/
def open_position (master_pos : MasterPosition) (ts : String) : SyncCommand :=
  { command_type := "open"
    position_id := none
    master_position_id := some master_pos.position_id
    symbol := some master_pos.symbol
    direction := some master_pos.direction
    volume := some master_pos.volume
    sl := some master_pos.sl
    tp := some master_pos.tp
    timestamp := ts }

/-- Rust `SyncCommand::close_position`. -/
def close_position (receiver_position_id : Int) (ts : String) : SyncCommand :=
  { command_type := "close"
    position_id := some receiver_position_id
    master_position_id := none
    symbol := none
    direction := none
    volume := none
    sl := none
    tp := none
    timestamp := ts }

/-- Rust `SyncCommand::modify_sl_tp`. -/
def modify_sl_tp (receiver_position_id : Int) (sl : Option ℚ) (tp : Option ℚ)
    (ts : String) : SyncCommand :=
  { command_type := "modify_sl_tp"
    position_id := some receiver_position_id
    master_position_id := none
    symbol := none
    direction := none
    volume := none
    sl := sl
    tp := tp
    timestamp := ts }

end SyncCommand

/-! ## Reconciliation — `copier/reconciliation.rs` -/

/-- Rust `ReconciliationConfig`. -/
structure ReconciliationConfig where
  enabled : Bool
  interval_secs : Nat
  auto_close_orphaned : Bool
  auto_open_missing : Bool
  auto_adjust_volume : Bool
  auto_sync_sl_tp : Bool
deriving Repr, DecidableEq

/-- Rust `ReconciliationConfig::default()`. -/
def ReconciliationConfig.default : ReconciliationConfig :=
  { enabled := false
    interval_secs := 30
    auto_close_orphaned := false
    auto_open_missing := false
    auto_adjust_volume := false
    auto_sync_sl_tp := true }

/-- The command-emission slice of `handle_discrepancy`: the `SyncCommand`
handed to `write_sync_command`, if any.  (The `ReconciliationAction`
bookkeeping pushed afterwards emits no receiver command and is outside
this slice; `master_pos.sl`/`tp` are wrapped in `some` where the call site
passes them to the `Option` parameters of `modify_sl_tp`.) -/
def handle_discrepancy_cmd (discrepancy : PositionDiscrepancy)
    (config : ReconciliationConfig) (ts : String) : Option SyncCommand :=
  match discrepancy.discrepancy_type with
  | .MissingOnReceiver =>
    if config.auto_open_missing then
      match discrepancy.master_position with
      | some master_pos => some (SyncCommand.open_position master_pos ts)
      | none => none
    else none
  | .OrphanedOnReceiver =>
    if config.auto_close_orphaned then
      match discrepancy.receiver_position with
      | some recv_pos => some (SyncCommand.close_position recv_pos.position_id ts)
      | none => none
    else none
  | .SLMismatch | .TPMismatch =>
    if config.auto_sync_sl_tp then
      match discrepancy.master_position, discrepancy.receiver_position with
      | some master_pos, some recv_pos =>
        some (SyncCommand.modify_sl_tp recv_pos.position_id
          (some master_pos.sl) (some master_pos.tp) ts)
      | _, _ => none
    else none
  | .VolumeMismatch => none
  | .DirectionMismatch => none

/-! ## Shared concrete inputs for witnesses and scenarios -/

/-- The sample event used by the repository's own tests
(`make_test_event`). -/
def sampleEvent : TradeEvent :=
  { event_type := "entry"
    ticket := 12345
    deal_id := some 67890
    symbol := "EURUSD"
    direction := "buy"
    lots := 1/10
    price := 11/10
    sl := some (1095/1000)
    tp := some (111/100)
    timestamp := "2024-01-15T10:00:00Z"
    sl_distance_points := none
    tp_distance_points := none
    master_balance := none
    master_equity := none
    tick_value := none
    contract_size := none
    digits := none
    point := none }

/-- A minimal loaded configuration. -/
def sampleConfig : CopierConfig :=
  { version := 1
    config_hash := "h"
    master := { account_id := "a", account_number := "n",
                broker := "b", terminal_id := "t" }
    receivers := [] }

/-! ## C1 — mark-before-delete ordering in the ingestor -/

/-- C1: when the ingestor successfully processes an event file (the
fan-out engine is invoked), the trace of `process_event_file` is exactly
mark-key, then fan-out, then delete-file; in particular the idempotency
key is marked strictly before the source file is deleted, and no
execution path deletes a successfully processed event file before its key
is marked. -/
theorem C1_mark_key_before_delete (readResult : Option String)
    (parseResult : Option TradeEvent) (cache : IdempotencyCache)
    (is_running : Bool) (config : Option CopierConfig)
    (h : IngestAct.invokeFanOut ∈
      process_event_file readResult parseResult cache is_running config) :
    ∃ key, process_event_file readResult parseResult cache is_running config =
      [IngestAct.markProcessed key, IngestAct.invokeFanOut,
       IngestAct.deleteFile] := by
  cases readResult with
  | none => simp [process_event_file] at h
  | some content =>
    cases parseResult with
    | none => simp [process_event_file] at h
    | some event =>
      simp only [process_event_file] at h ⊢
      split at h
      · simp at h
      · rename_i h1
        rw [if_neg h1]
        split at h
        · simp at h
        · rename_i h2
          rw [if_neg h2]
          cases config with
          | none => simp at h
          | some c => exact ⟨_, rfl⟩

/-- Witness for C1: a fresh, well-formed event on a running agent with a
config takes the successful path. -/
theorem C1_mark_key_before_delete_witness :
    IngestAct.invokeFanOut ∈ process_event_file (some "raw") (some sampleEvent)
      IdempotencyCache.new true (some sampleConfig) ∧
    ∃ key, process_event_file (some "raw") (some sampleEvent)
        IdempotencyCache.new true (some sampleConfig) =
      [IngestAct.markProcessed key, IngestAct.invokeFanOut,
       IngestAct.deleteFile] :=
  ⟨by decide,
   C1_mark_key_before_delete (some "raw") (some sampleEvent)
     IdempotencyCache.new true (some sampleConfig) (by decide)⟩

/-! ## C2 — bounded FIFO idempotency set

The counterexample needs a cache at the 10,000-key cap; `ceKeys s c`
builds `c` pairwise-distinct keys starting at index `s` (key `n` is the
string of `n + 1` copies of the character 'a'). -/

/-- Distinct key number `n` for the at-cap counterexample. -/
def ceKey (n : Nat) : String := String.mk (List.replicate (n + 1) 'a')

/-- Keys `s, s+1, …, s+c-1`, oldest first. -/
def ceKeys : Nat → Nat → List String
  | _, 0 => []
  | s, c + 1 => ceKey s :: ceKeys (s + 1) c

theorem ceKey_inj {m n : Nat} (h : ceKey m = ceKey n) : m = n := by
  have hd : (List.replicate (m + 1) 'a') = (List.replicate (n + 1) 'a') := by
    have := congrArg String.data h
    simpa [ceKey] using this
  have := congrArg List.length hd
  simpa using this

theorem ceKeys_length : ∀ (c s : Nat), (ceKeys s c).length = c := by
  intro c
  induction c with
  | zero => intro s; rfl
  | succ c ih => intro s; simp [ceKeys, ih]

theorem ceKey_mem_ceKeys : ∀ (c s n : Nat), s ≤ n → n < s + c →
    ceKey n ∈ ceKeys s c := by
  intro c
  induction c with
  | zero => intro s n h1 h2; omega
  | succ c ih =>
    intro s n h1 h2
    rcases Nat.eq_or_lt_of_le h1 with h | h
    · subst h; simp [ceKeys]
    · simp only [ceKeys, List.mem_cons]
      exact Or.inr (ih (s + 1) n h (by omega))

theorem ceKey_not_mem_ceKeys : ∀ (c s n : Nat), n < s →
    ceKey n ∉ ceKeys s c := by
  intro c
  induction c with
  | zero => intro s n _ h; simp [ceKeys] at h
  | succ c ih =>
    intro s n hlt
    simp only [ceKeys, List.mem_cons, not_or]
    refine ⟨fun h => ?_, ih (s + 1) n (by omega)⟩
    have := ceKey_inj h
    omega

theorem pruneOldest_cons_of_ge {o : String} {rest s : List String}
    (h : MAX_KEYS_IN_MEMORY ≤ s.length) :
    IdempotencyCache.pruneOldest (o :: rest) s =
      IdempotencyCache.pruneOldest rest (s.erase o) := by
  simp [IdempotencyCache.pruneOldest, h]

theorem pruneOldest_of_lt {order s : List String}
    (h : s.length < MAX_KEYS_IN_MEMORY) :
    IdempotencyCache.pruneOldest order s = (order, s) := by
  cases order with
  | nil => rfl
  | cons o rest => simp [IdempotencyCache.pruneOldest, Nat.not_le.mpr h]

theorem ce_insert_at_cap :
    IdempotencyCache.insert ⟨ceKeys 0 10000, ceKeys 0 10000⟩ (ceKey 9999) =
      ⟨ceKeys 1 9999, ceKeys 1 9999⟩ := by
  have hlen : (ceKeys 0 10000).length = 10000 := ceKeys_length 10000 0
  have hlen1 : (ceKeys 1 9999).length = 9999 := ceKeys_length 9999 1
  have hcons : ceKeys 0 10000 = ceKey 0 :: ceKeys 1 9999 := rfl
  have herase : (ceKey 0 :: ceKeys 1 9999).erase (ceKey 0) = ceKeys 1 9999 :=
    List.erase_cons_head _ _
  have hprune : IdempotencyCache.pruneOldest (ceKeys 0 10000) (ceKeys 0 10000)
      = (ceKeys 1 9999, ceKeys 1 9999) := by
    rw [hcons, pruneOldest_cons_of_ge (by rw [← hcons, hlen]; rfl), herase,
      pruneOldest_of_lt (by rw [hlen1]; norm_num [MAX_KEYS_IN_MEMORY])]
  have hmem : ceKey 9999 ∈ ceKeys 1 9999 :=
    ceKey_mem_ceKeys 9999 1 9999 (by omega) (by omega)
  simp [IdempotencyCache.insert, hprune, hmem]

/-- C2 counterexample: with the cache exactly at its 10,000-key cap,
inserting a key that is already present is NOT a no-op — the eviction
loop runs before the duplicate test, so the oldest key is evicted: after
the duplicate insert, `contains` of the previously stored oldest key
returns `false` even though it was never explicitly cleared. -/
theorem C2_cex_duplicate_insert_evicts :
    IdempotencyCache.contains ⟨ceKeys 0 10000, ceKeys 0 10000⟩
      (ceKey 9999) = true ∧
    IdempotencyCache.contains ⟨ceKeys 0 10000, ceKeys 0 10000⟩
      (ceKey 0) = true ∧
    IdempotencyCache.contains
      (IdempotencyCache.insert ⟨ceKeys 0 10000, ceKeys 0 10000⟩ (ceKey 9999))
      (ceKey 0) = false := by
  refine ⟨?_, ?_, ?_⟩
  · simp only [IdempotencyCache.contains, decide_eq_true_eq]
    exact ceKey_mem_ceKeys 10000 0 9999 (by omega) (by omega)
  · simp only [IdempotencyCache.contains, decide_eq_true_eq]
    exact ceKey_mem_ceKeys 10000 0 0 (by omega) (by omega)
  · rw [ce_insert_at_cap]
    simp only [IdempotencyCache.contains, decide_eq_false_iff_not]
    exact ceKey_not_mem_ceKeys 9999 1 0 (by omega)

/-- C2 (amended): the idempotency store is a bounded FIFO set with cap
10,000.  (1) after `insert key`, `contains key` holds; (2) inserting an
already-present key while the store is BELOW capacity is a no-op; (3)
`clear` empties the store; (4) an insert into a store exactly at capacity
first evicts the oldest (front) key — even when the inserted key is
already present — and appends the key to the tail only if it is not
present after the eviction. -/
theorem C2_bounded_fifo_set_spec :
    (∀ (c : IdempotencyCache) (k : String),
      (c.insert k).contains k = true) ∧
    (∀ (c : IdempotencyCache) (k : String),
      c.contains k = true → c.keys_set.length < MAX_KEYS_IN_MEMORY →
      c.insert k = c) ∧
    (∀ (c : IdempotencyCache) (k : String),
      (c.clear).contains k = false) ∧
    (∀ (o : String) (rest s : List String) (k : String),
      s.length = MAX_KEYS_IN_MEMORY → o ∈ s →
      IdempotencyCache.insert ⟨o :: rest, s⟩ k =
        if k ∈ s.erase o then ⟨rest, s.erase o⟩
        else ⟨rest ++ [k], s.erase o ++ [k]⟩) := by
  refine ⟨?_, ?_, ?_, ?_⟩
  · intro c k
    simp only [IdempotencyCache.insert, IdempotencyCache.contains]
    split
    · next h => simpa using h
    · simp
  · intro c k hmem hlen
    simp only [IdempotencyCache.contains, decide_eq_true_eq] at hmem
    simp [IdempotencyCache.insert, pruneOldest_of_lt hlen, hmem]
  · intro c k
    simp [IdempotencyCache.clear, IdempotencyCache.contains]
  · intro o rest s k hlen homem
    have hersz : (s.erase o).length < MAX_KEYS_IN_MEMORY := by
      rw [List.length_erase_of_mem homem, hlen]
      simp [MAX_KEYS_IN_MEMORY]
    simp only [IdempotencyCache.insert,
      pruneOldest_cons_of_ge (le_of_eq hlen.symm), pruneOldest_of_lt hersz]

/-- Witness for C2: each conjunct applied at a concrete store; the at-cap
clause is applied to the 10,000-key store of the counterexample. -/
theorem C2_bounded_fifo_set_spec_witness :
    ((IdempotencyCache.new.insert "k1").contains "k1" = true) ∧
    ((IdempotencyCache.contains ⟨["k1"], ["k1"]⟩ "k1" = true) ∧
      ((["k1"] : List String).length < MAX_KEYS_IN_MEMORY) ∧
      IdempotencyCache.insert ⟨["k1"], ["k1"]⟩ "k1" = ⟨["k1"], ["k1"]⟩) ∧
    ((IdempotencyCache.clear ⟨["k1"], ["k1"]⟩).contains "k1" = false) ∧
    (((ceKeys 0 10000).length = MAX_KEYS_IN_MEMORY) ∧
      (ceKey 0 ∈ ceKeys 0 10000) ∧
      IdempotencyCache.insert ⟨ceKey 0 :: ceKeys 1 9999, ceKeys 0 10000⟩
          (ceKey 9999) =
        if ceKey 9999 ∈ (ceKeys 0 10000).erase (ceKey 0) then
          ⟨ceKeys 1 9999, (ceKeys 0 10000).erase (ceKey 0)⟩
        else ⟨ceKeys 1 9999 ++ [ceKey 9999],
              (ceKeys 0 10000).erase (ceKey 0) ++ [ceKey 9999]⟩) :=
  ⟨C2_bounded_fifo_set_spec.1 IdempotencyCache.new "k1",
   ⟨by decide, by decide,
    C2_bounded_fifo_set_spec.2.1 ⟨["k1"], ["k1"]⟩ "k1" (by decide) (by decide)⟩,
   C2_bounded_fifo_set_spec.2.2.1 ⟨["k1"], ["k1"]⟩ "k1",
   ⟨ceKeys_length 10000 0,
    ceKey_mem_ceKeys 10000 0 0 (Nat.le_refl 0) (by omega),
    C2_bounded_fifo_set_spec.2.2.2 (ceKey 0) (ceKeys 1 9999) (ceKeys 0 10000)
      (ceKey 9999) (ceKeys_length 10000 0)
      (ceKey_mem_ceKeys 10000 0 0 (Nat.le_refl 0) (by omega))⟩⟩

/-! ## C3 — retry backoff schedule

The E4 scenario of the spec, step by step, with the clock passed in
explicitly: enqueue at t = 0, dequeue, fail, then dequeue again as soon as
the entry is eligible. -/

/-- Queue after `enqueue` at t = 0. -/
def c3_q1 : ExecutionQueue :=
  ExecutionQueue.empty.enqueue sampleEvent "recv_1" "term_1" "e1" 0 "t0"

/-- Queue after the first `dequeue` at t = 0. -/
def c3_q2 : ExecutionQueue := (c3_q1.dequeue 0).2

/-- Queue after the first `fail` at t = 0. -/
def c3_q3 : ExecutionQueue := c3_q2.fail "e1" "Connection failed" 0 "t0"

/-- Queue after the second `dequeue` at t = 2 (first eligible instant). -/
def c3_q4 : ExecutionQueue := (c3_q3.dequeue 2).2

/-- Queue after the second `fail` at t = 2. -/
def c3_q5 : ExecutionQueue := c3_q4.fail "e1" "Connection failed" 2 "t1"

/-- Queue after the third `dequeue` at t = 6 (first eligible instant). -/
def c3_q6 : ExecutionQueue := (c3_q5.dequeue 6).2

/-- Queue after the third `fail` at t = 6. -/
def c3_q7 : ExecutionQueue := c3_q6.fail "e1" "Connection failed" 6 "t2"

/-- C3 counterexample: after one enqueue (t = 0), dequeue and fail, the
execution is back in pending with `attempts = 1` but
`next_retry_at = now + 2` — not `now + 1` as the claim states: the
backoff exponent `2^attempts` is computed from the attempts counter that
`dequeue` has already incremented. -/
theorem C3_cex_first_backoff_two_seconds :
    c3_q3.pending.map (fun e => (e.attempts, e.next_retry_at)) = [(1, 2)] ∧
    c3_q3.pending.map (fun e => (e.attempts, e.next_retry_at)) ≠
      [(1, 0 + 1)] := by
  refine ⟨by decide, by decide⟩

/-- C3 (amended): the backoff schedule is 2 s then 4 s (`2^attempts`
seconds with `attempts` counted after the dequeue increment).  After the
first dequeue/fail the execution is pending with `attempts = 1`,
`next_retry_at = now + 2`; after the second, `attempts = 2`,
`next_retry_at = now + 4`; the third dequeue/fail does not requeue: it
empties `pending`/`in_progress` and appends a failed `ExecutionResult`
with `attempts = 3` (the execution having been marked
`MaxRetriesExceeded`). -/
theorem C3_retry_backoff_schedule :
    c3_q3.pending.map (fun e => (e.attempts, e.next_retry_at, e.status)) =
      [(1, 0 + 2, .Pending)] ∧
    c3_q5.pending.map (fun e => (e.attempts, e.next_retry_at, e.status)) =
      [(2, 2 + 4, .Pending)] ∧
    c3_q7.pending = [] ∧
    c3_q7.in_progress = [] ∧
    c3_q7.completed.map (fun r => (r.success, r.attempts, r.error_message)) =
      [(false, 3, some "Connection failed")] := by
  refine ⟨by decide, by decide, by decide, by decide, by decide⟩

/-! ## C4 — crash recovery reclassifies in-progress entries -/

/-- C4: loading the queue moves every persisted in-progress entry to
pending with status `Pending` and `next_retry_at = now`, preserving its
attempts counter (and every other field), leaves `in_progress` empty, and
the pending set after load is exactly the union of the persisted pending
and reclassified in-progress entries. -/
theorem C4_load_reclassifies_in_progress (p : List QueuedExecution)
    (ip : List (String × QueuedExecution)) (comp : List ExecutionResult)
    (now : Int) :
    (ExecutionQueue.load_recover p ip comp now).in_progress = [] ∧
    (∀ e ∈ p, e ∈ (ExecutionQueue.load_recover p ip comp now).pending) ∧
    (∀ kv ∈ ip,
      ({ kv.2 with status := .Pending, next_retry_at := now } :
        QueuedExecution) ∈ (ExecutionQueue.load_recover p ip comp now).pending) ∧
    (∀ e ∈ (ExecutionQueue.load_recover p ip comp now).pending,
      e ∈ p ∨ ∃ kv ∈ ip,
        e = { kv.2 with status := .Pending, next_retry_at := now }) ∧
    (∀ kv ∈ ip, ∃ e ∈ (ExecutionQueue.load_recover p ip comp now).pending,
      e.id = kv.2.id ∧ e.attempts = kv.2.attempts ∧
      e.status = .Pending ∧ e.next_retry_at = now) := by
  refine ⟨rfl, ?_, ?_, ?_, ?_⟩
  · intro e he
    simp [ExecutionQueue.load_recover, he]
  · intro kv hkv
    simp only [ExecutionQueue.load_recover, List.mem_append, List.mem_map]
    exact Or.inr ⟨kv, hkv, rfl⟩
  · intro e he
    simp only [ExecutionQueue.load_recover, List.mem_append, List.mem_map] at he
    rcases he with he | ⟨kv, hkv, rfl⟩
    · exact Or.inl he
    · exact Or.inr ⟨kv, hkv, rfl⟩
  · intro kv hkv
    refine ⟨{ kv.2 with status := .Pending, next_retry_at := now }, ?_,
      rfl, rfl, rfl, rfl⟩
    simp only [ExecutionQueue.load_recover, List.mem_append, List.mem_map]
    exact Or.inr ⟨kv, hkv, rfl⟩

/-- One stale in-progress execution for the C4 witness. -/
def c4_stale : QueuedExecution :=
  { id := "e9"
    event := sampleEvent
    receiver_id := "recv_1"
    receiver_terminal_id := "term_1"
    attempts := 2
    max_attempts := 3
    next_retry_at := 17
    created_at := "t0"
    status := .InProgress
    last_error := some "boom" }

/-- Witness for C4: the recovery theorem applied to one persisted pending
entry and one persisted in-progress entry. -/
theorem C4_load_reclassifies_in_progress_witness :
    (("e9", c4_stale) ∈ [("e9", c4_stale)]) ∧
    (∃ e ∈ (ExecutionQueue.load_recover [] [("e9", c4_stale)] [] 99).pending,
      e.id = ("e9", c4_stale).2.id ∧
      e.attempts = ("e9", c4_stale).2.attempts ∧
      e.status = .Pending ∧ e.next_retry_at = 99) :=
  ⟨List.mem_singleton.mpr rfl,
   (C4_load_reclassifies_in_progress [] [("e9", c4_stale)] [] 99).2.2.2.2
     ("e9", c4_stale) (List.mem_singleton.mpr rfl)⟩

/-! ## C5 — a paused receiver stays blocked until unpause or rollover -/

theorem find?_map_replace (m : SafetyStates) (rid : String)
    (st : ReceiverSafetyState) :
    (m.map (fun p => if p.1 == rid then (rid, st) else p)).find?
        (fun p => p.1 == rid) =
      (m.find? (fun p => p.1 == rid)).map (fun _ => (rid, st)) := by
  induction m with
  | nil => rfl
  | cons a m ih =>
    by_cases h : (a.1 == rid) = true
    · have h1 : List.find? (fun p => p.1 == rid)
          ((rid, st) ::
            m.map (fun p => if (p.1 == rid) = true then (rid, st) else p)) =
          some (rid, st) :=
        List.find?_cons_of_pos _ (by simp)
      have h2 : List.find? (fun p => p.1 == rid) (a :: m) = some a :=
        List.find?_cons_of_pos _ h
      rw [List.map_cons, if_pos h, h1, h2]
      rfl
    · have h1 : List.find? (fun p => p.1 == rid)
          (a :: m.map (fun p => if (p.1 == rid) = true then (rid, st) else p)) =
          List.find? (fun p => p.1 == rid)
            (m.map (fun p => if (p.1 == rid) = true then (rid, st) else p)) :=
        List.find?_cons_of_neg _ h
      have h2 : List.find? (fun p => p.1 == rid) (a :: m) =
          List.find? (fun p => p.1 == rid) m :=
        List.find?_cons_of_neg _ h
      rw [List.map_cons, if_neg h, h1, h2, ih]

theorem lookup_storeState (m : SafetyStates) (rid : String)
    (st : ReceiverSafetyState) :
    lookupState (storeState m rid st) rid = some st := by
  unfold lookupState storeState
  by_cases h : (m.find? (fun p => p.1 == rid)).isSome
  · rw [if_pos h, find?_map_replace]
    rcases Option.isSome_iff_exists.mp h with ⟨a, ha⟩
    rw [ha]
    rfl
  · rw [if_neg h, List.find?_append, Option.not_isSome_iff_eq_none.mp h]
    simp

theorem check_daily_reset_same_day (m : SafetyStates) (rid : String)
    (today : Int) (nowStr : String) (st : ReceiverSafetyState)
    (hl : lookupState m rid = some st)
    (hd : st.last_reset_date = some today) :
    check_daily_reset m rid today nowStr = m := by
  unfold check_daily_reset
  rw [hl]
  simp [hd]

/-- C5: (a) a receiver whose stored safety state is paused and whose
`last_reset_date` equals the current trading day gets `Blocked` carrying
the stored `pause_reason` from every `check_trade_safety` call, and the
state map is left unchanged (so every subsequent call is also blocked);
(b) on trading-day rollover, `check_daily_reset` clears the pause, the
pause reason and the daily counters and stamps the new day; (c)
`unpause_receiver` clears the pause and the pause reason. -/
theorem C5_paused_blocked_until_unpause_or_rollover :
    (∀ (m : SafetyStates) (rid : String) (config : SafetyConfig) (bal : ℚ)
       (today : Int) (nowStr : String) (st : ReceiverSafetyState),
      lookupState m rid = some st →
      st.is_safety_paused = true →
      st.last_reset_date = some today →
      check_trade_safety m rid config bal today nowStr =
        (m, .Blocked (st.pause_reason.getD "Safety limit reached"))) ∧
    (∀ (m : SafetyStates) (rid : String) (today d : Int) (nowStr : String)
       (st : ReceiverSafetyState),
      lookupState m rid = some st →
      st.last_reset_date = some d →
      d ≠ today →
      ∃ st2, lookupState (check_daily_reset m rid today nowStr) rid =
          some st2 ∧
        st2.is_safety_paused = false ∧ st2.pause_reason = none ∧
        st2.daily_pnl = 0 ∧ st2.trades_today = 0 ∧ st2.wins_today = 0 ∧
        st2.losses_today = 0 ∧ st2.consecutive_losses = 0 ∧
        st2.last_reset_date = some today) ∧
    (∀ (m : SafetyStates) (rid : String) (nowStr : String)
       (st : ReceiverSafetyState),
      lookupState m rid = some st →
      ∃ st2, lookupState (unpause_receiver m rid nowStr) rid = some st2 ∧
        st2.is_safety_paused = false ∧ st2.pause_reason = none) := by
  refine ⟨?_, ?_, ?_⟩
  · intro m rid config bal today nowStr st hl hpause hd
    have hm1 := check_daily_reset_same_day m rid today nowStr st hl hd
    simp only [check_trade_safety, hm1, get_receiver_state, hl,
      Option.getD_some, hpause]
    simp
  · intro m rid today d nowStr st hl hd hne
    unfold check_daily_reset
    rw [hl]
    simp only [hd, bne_iff_ne, ne_eq, hne, not_false_eq_true, if_true]
    exact ⟨_, lookup_storeState m rid _, rfl, rfl, rfl, rfl, rfl, rfl, rfl, rfl⟩
  · intro m rid nowStr st hl
    unfold unpause_receiver
    rw [hl]
    exact ⟨_, lookup_storeState m rid _, rfl, rfl⟩

/-- A paused stored state for the C5 witness. -/
def c5_paused : ReceiverSafetyState :=
  { ReceiverSafetyState.default with
      is_safety_paused := true
      pause_reason := some "Daily loss limit reached: $350.00 (3% of $10000)"
      last_reset_date := some 5
      starting_balance := 10000 }

/-- Witness for C5: all three clauses applied to a concrete one-receiver
map (same-day check, next-day rollover, manual unpause). -/
theorem C5_paused_blocked_until_unpause_or_rollover_witness :
    (lookupState [("r1", c5_paused)] "r1" = some c5_paused) ∧
    (c5_paused.is_safety_paused = true) ∧
    (c5_paused.last_reset_date = some 5) ∧
    check_trade_safety [("r1", c5_paused)] "r1" SafetyConfig.default
        10000 5 "now" =
      ([("r1", c5_paused)],
        .Blocked (c5_paused.pause_reason.getD "Safety limit reached")) ∧
    (∃ st2, lookupState (check_daily_reset [("r1", c5_paused)] "r1" 6 "now")
        "r1" = some st2 ∧
      st2.is_safety_paused = false ∧ st2.pause_reason = none ∧
      st2.daily_pnl = 0 ∧ st2.trades_today = 0 ∧ st2.wins_today = 0 ∧
      st2.losses_today = 0 ∧ st2.consecutive_losses = 0 ∧
      st2.last_reset_date = some 6) ∧
    (∃ st2, lookupState (unpause_receiver [("r1", c5_paused)] "r1" "now")
        "r1" = some st2 ∧
      st2.is_safety_paused = false ∧ st2.pause_reason = none) :=
  ⟨rfl, rfl, rfl,
   C5_paused_blocked_until_unpause_or_rollover.1 [("r1", c5_paused)] "r1"
     SafetyConfig.default 10000 5 "now" c5_paused rfl rfl rfl,
   C5_paused_blocked_until_unpause_or_rollover.2.1 [("r1", c5_paused)] "r1"
     6 5 "now" c5_paused rfl rfl (by decide),
   C5_paused_blocked_until_unpause_or_rollover.2.2 [("r1", c5_paused)] "r1"
     "now" c5_paused rfl⟩

/-! ## C6 — the E3 daily-loss block scenario -/

/-- Safety map after `initialize_receiver("r1", 10000, 10000)` on trading
day 20000. -/
def c6_m1 : SafetyStates := init_receiver [] "r1" 10000 10000 20000 "t0"

/-- Safety map after `record_trade_result("r1", -350.0, false)`. -/
def c6_m2 : SafetyStates := record_trade_result c6_m1 "r1" (-350) false "t1"

/-- The E3 safety configuration: `max_daily_loss_percent = 3.0`. -/
def c6_cfg : SafetyConfig :=
  { SafetyConfig.default with max_daily_loss_percent := some 3 }

theorem rustRound_eq (q : ℚ) (n : ℤ) (h0 : 0 ≤ q) (h1 : (n : ℚ) ≤ q + 1/2)
    (h2 : q + 1/2 < (n : ℚ) + 1) : rustRound q = n := by
  unfold rustRound
  rw [if_pos h0]
  exact Int.floor_eq_iff.mpr ⟨h1, h2⟩

theorem fmtDec2_350 : fmtDec2 350 = "350.00" := by
  have hm : (350 : ℚ) * 100 = 35000 := by norm_num
  have hr : rustRound (35000 : ℚ) = 35000 :=
    rustRound_eq _ _ (by norm_num) (by norm_num) (by norm_num)
  simp only [fmtDec2, hm, hr]
  decide

theorem fmtDec0_10000 : fmtDec0 10000 = "10000" := by
  have hr : rustRound (10000 : ℚ) = 10000 :=
    rustRound_eq _ _ (by norm_num) (by norm_num) (by norm_num)
  simp only [fmtDec0, hr]
  decide

/-- The safety state reached in the E3 scenario just before the blocked
check. -/
def c6_state : ReceiverSafetyState :=
  { daily_pnl := -350
    trades_today := 1
    wins_today := 0
    losses_today := 1
    high_water_mark := 10000
    current_equity := 10000
    starting_balance := 10000
    last_reset_date := some 20000
    is_safety_paused := false
    pause_reason := none
    consecutive_losses := 1
    last_updated := some "t1" }

theorem c6_m2_eq : c6_m2 = [("r1", c6_state)] := by
  simp only [c6_m2, c6_m1, record_trade_result, init_receiver,
    get_receiver_state, lookupState, storeState, ReceiverSafetyState.default,
    List.find?, c6_state]
  norm_num

/-- C6: with starting balance 10,000 and `max_daily_loss_percent = 3.0`,
after recording a −350 trade result the next `check_trade_safety` returns
exactly `Blocked "Daily loss limit reached: $350.00 (3% of $10000)"` and
leaves the receiver safety-paused. -/
theorem C6_daily_loss_block_scenario :
    (check_trade_safety c6_m2 "r1" c6_cfg 10000 20000 "t2").2 =
      .Blocked "Daily loss limit reached: $350.00 (3% of $10000)" ∧
    (get_receiver_state (check_trade_safety c6_m2 "r1" c6_cfg 10000 20000
        "t2").1 "r1").is_safety_paused = true := by
  have hlook : lookupState c6_m2 "r1" = some c6_state := by
    rw [c6_m2_eq]
    rfl
  have hreset : check_daily_reset c6_m2 "r1" 20000 "t2" = c6_m2 :=
    check_daily_reset_same_day c6_m2 "r1" 20000 "t2" c6_state hlook rfl
  have habs : |c6_state.daily_pnl| = (350 : ℚ) := by
    norm_num [c6_state]
  have hreason : "Daily loss limit reached: $" ++ fmtDec2 |c6_state.daily_pnl|
      ++ " (" ++ fmtF64 3 ++ "% of $" ++ fmtDec0 10000 ++ ")" =
      "Daily loss limit reached: $350.00 (3% of $10000)" := by
    rw [habs, fmtDec2_350, fmtDec0_10000]
    decide
  have hstep : check_trade_safety c6_m2 "r1" c6_cfg 10000 20000 "t2" =
      (pause_receiver c6_m2 "r1"
        ("Daily loss limit reached: $" ++ fmtDec2 |c6_state.daily_pnl|
          ++ " (" ++ fmtF64 3 ++ "% of $" ++ fmtDec0 10000 ++ ")") "t2",
       .Blocked ("Daily loss limit reached: $" ++ fmtDec2 |c6_state.daily_pnl|
          ++ " (" ++ fmtF64 3 ++ "% of $" ++ fmtDec0 10000 ++ ")")) := by
    simp only [check_trade_safety, hreset, get_receiver_state, hlook,
      Option.getD_some, c6_cfg, SafetyConfig.default]
    norm_num [c6_state]
  rw [hstep, hreason]
  refine ⟨rfl, ?_⟩
  simp only [pause_receiver, get_receiver_state, lookup_storeState,
    Option.getD_some]

/-! ## C7 — lot calculator range and rounding -/

theorem round_lots_hundredth (x : ℚ) :
    ∃ n : ℤ, round_lots x = (n : ℚ) / 100 :=
  ⟨rustRound (x * 100), rfl⟩

theorem isHundredth_ite (c : Prop) [Decidable c] (a b : ℚ)
    (ha : ∃ n : ℤ, a = (n : ℚ)/100) (hb : ∃ n : ℤ, b = (n : ℚ)/100) :
    ∃ n : ℤ, (if c then a else b) = (n : ℚ)/100 := by
  by_cases hc : c
  · simpa [hc] using ha
  · simpa [hc] using hb

theorem calculate_lots_from_risk_hundredth (a p s : ℚ) (i : SymbolInfo) :
    ∃ n : ℤ, calculate_lots_from_risk a p s i = (n : ℚ) / 100 := by
  simp only [calculate_lots_from_risk]
  exact isHundredth_ite _ _ _ ⟨1, by norm_num⟩
    (isHundredth_ite _ _ _ ⟨1, by norm_num⟩ (round_lots_hundredth _))

/-- C7 counterexample: `calculate_lots` does not clamp its result to
`[min_lot, max_lot]` — in `fixed_lot` mode with `risk_value = 0.001` it
returns `0.0`, strictly below the 0.01 minimum lot; the clamp lives in the
separate `apply_min_lot_limit` helper (which would return 0.01 here) and
`SymbolInfo` carries no lot bounds at all. -/
theorem C7_cex_no_clamp :
    calculate_lots "fixed_lot" (1/1000) 1 (11/10) none none none none = 0 ∧
    calculate_lots "fixed_lot" (1/1000) 1 (11/10) none none none none
      < 1/100 ∧
    apply_min_lot_limit
      (calculate_lots "fixed_lot" (1/1000) 1 (11/10) none none none none)
      none = 1/100 := by
  have h1 : ((1 : ℚ)/1000) * 100 = 1/10 := by norm_num
  have h2 : rustRound ((1 : ℚ)/10) = 0 :=
    rustRound_eq _ _ (by norm_num) (by norm_num) (by norm_num)
  have h0 : calculate_lots "fixed_lot" (1/1000) 1 (11/10) none none none none
      = 0 := by
    show round_lots (1/1000) = 0
    unfold round_lots
    rw [h1, h2]
    norm_num
  refine ⟨h0, ?_, ?_⟩
  · rw [h0]
    norm_num
  · rw [h0]
    unfold apply_min_lot_limit
    norm_num

/-- C7 (amended): `calculate_lots` is a pure function of its arguments and
every result, in every risk mode, is an integer multiple of 0.01 (the
`round_lots` rounding, or the literal 0.01 of the degenerate risk-from-SL
cases); it does NOT clamp to `[min_lot, max_lot]` — that is done by the
separate `apply_min_lot_limit` / `apply_max_lot_limit` helpers — and its
raw result can lie outside that range (e.g. 0.0 above). -/
theorem C7_lots_are_hundredth_multiples (risk_mode : String)
    (risk_value master_lots price : ℚ) (sl master_balance : Option ℚ)
    (receiver_account : Option AccountInfo)
    (symbol_info : Option SymbolInfo) :
    ∃ n : ℤ, calculate_lots risk_mode risk_value master_lots price sl
      master_balance receiver_account symbol_info = (n : ℚ) / 100 := by
  simp only [calculate_lots]
  split
  · exact round_lots_hundredth _
  · exact round_lots_hundredth _
  · split
    · exact isHundredth_ite _ _ _ (round_lots_hundredth _)
        (round_lots_hundredth _)
    · exact round_lots_hundredth _
  · split
    · exact calculate_lots_from_risk_hundredth _ _ _ _
    · exact round_lots_hundredth _
  · split
    · exact calculate_lots_from_risk_hundredth _ _ _ _
    · exact round_lots_hundredth _
  · split
    · exact calculate_lots_from_risk_hundredth _ _ _ _
    · exact round_lots_hundredth _
  · exact round_lots_hundredth _
  · exact round_lots_hundredth _

/-! ## C8 — retryable-error classification -/

/-- Modelled from the spec: the list of retryable substrings and retcodes
named by the specification (section 4.6, Retry classification), which
omits retcode 10008. -/
def spec_retryable_patterns : List String :=
  ["timeout", "busy", "try again", "connection", "temporary", "requote",
   "off quotes", "market closed", "no prices", "trade context",
   "10004", "10006", "10021"]

/-- C8 counterexample: the message `"10008"` is classified retryable by
the code (the `retryable_patterns` array also contains
`"10008"`, the `TRADE_RETCODE_PLACED` retcode), but it contains none of
the substrings or retcodes enumerated by the claim, which the claim says
are the only retryable messages. -/
theorem C8_cex_retcode_10008 :
    is_retryable_error "10008" = true ∧
    spec_retryable_patterns.all
      (fun p => !(contains_sub (str_to_lower "10008") p)) = true := by
  refine ⟨by decide, by decide⟩

theorem mem_retryable_patterns_iff (p : String) :
    p ∈ retryable_patterns ↔ p ∈ "10008" :: spec_retryable_patterns := by
  simp only [retryable_patterns, spec_retryable_patterns, List.mem_cons,
    List.mem_singleton, List.mem_nil_iff]
  tauto

/-- C8 (amended): an error message is classified retryable if and only if
its lowercase form contains one of the claim's substrings/retcodes OR the
additional retcode `10008`; every other message is terminal. -/
theorem C8_retryable_iff_patterns (error : String) :
    is_retryable_error error = true ↔
      ∃ p ∈ ("10008" :: spec_retryable_patterns),
        p.data <:+: (str_to_lower error).data := by
  simp only [is_retryable_error, contains_sub, List.any_eq_true,
    decide_eq_true_eq]
  exact ⟨fun ⟨p, hp, h⟩ => ⟨p, (mem_retryable_patterns_iff p).mp hp, h⟩,
    fun ⟨p, hp, h⟩ => ⟨p, (mem_retryable_patterns_iff p).mpr hp, h⟩⟩

/-! ## C9 — reconciliation flags gate command emission -/

/-- Case analysis of the command-emission slice of `handle_discrepancy`:
either no command is emitted, or the emitted command is the open / close /
modify command of the corresponding branch, with the branch's flag set. -/
theorem handle_discrepancy_cmd_cases (dt : DiscrepancyType)
    (mp : Option MasterPosition) (rid : String)
    (rp : Option ReceiverPosition) (sa : String)
    (config : ReconciliationConfig) (ts : String) :
    handle_discrepancy_cmd ⟨dt, mp, rid, rp, sa⟩ config ts = none ∨
    (∃ m, mp = some m ∧ dt = .MissingOnReceiver ∧
      config.auto_open_missing = true ∧
      handle_discrepancy_cmd ⟨dt, mp, rid, rp, sa⟩ config ts =
        some (SyncCommand.open_position m ts)) ∨
    (∃ r, rp = some r ∧ dt = .OrphanedOnReceiver ∧
      config.auto_close_orphaned = true ∧
      handle_discrepancy_cmd ⟨dt, mp, rid, rp, sa⟩ config ts =
        some (SyncCommand.close_position r.position_id ts)) ∨
    (∃ m r, mp = some m ∧ rp = some r ∧
      (dt = .SLMismatch ∨ dt = .TPMismatch) ∧
      config.auto_sync_sl_tp = true ∧
      handle_discrepancy_cmd ⟨dt, mp, rid, rp, sa⟩ config ts =
        some (SyncCommand.modify_sl_tp r.position_id (some m.sl) (some m.tp)
          ts)) := by
  cases dt <;> rcases mp with _ | m <;> rcases rp with _ | r <;>
    rcases h1 : config.auto_open_missing <;>
    rcases h2 : config.auto_close_orphaned <;>
    rcases h3 : config.auto_sync_sl_tp <;>
    simp [handle_discrepancy_cmd, h1, h2, h3]

/-- C9: reconciliation never emits an `open` command when
`auto_open_missing` is false, never emits a `close` command when
`auto_close_orphaned` is false, and a `direction_mismatch` discrepancy
never results in any corrective command, regardless of configuration. -/
theorem C9_flags_gate_commands (d : PositionDiscrepancy)
    (config : ReconciliationConfig) (ts : String) :
    (config.auto_open_missing = false →
      ∀ cmd, handle_discrepancy_cmd d config ts = some cmd →
        cmd.command_type ≠ "open") ∧
    (config.auto_close_orphaned = false →
      ∀ cmd, handle_discrepancy_cmd d config ts = some cmd →
        cmd.command_type ≠ "close") ∧
    (d.discrepancy_type = .DirectionMismatch →
      handle_discrepancy_cmd d config ts = none) := by
  obtain ⟨dt, mp, rid, rp, sa⟩ := d
  rcases handle_discrepancy_cmd_cases dt mp rid rp sa config ts with
    hnone | ⟨m, hm, hdt, hflag, hcmd⟩ | ⟨r, hr, hdt, hflag, hcmd⟩ |
    ⟨m, r, hm, hr, hdt, hflag, hcmd⟩
  · refine ⟨?_, ?_, fun _ => hnone⟩ <;>
      (intro _ cmd hc; rw [hnone] at hc; exact absurd hc (by simp))
  · refine ⟨?_, ?_, ?_⟩
    · intro hoff
      rw [hflag] at hoff
      exact absurd hoff (by simp)
    · intro _ cmd hc
      rw [hcmd] at hc
      obtain rfl : SyncCommand.open_position m ts = cmd := by
        simpa using hc
      simp [SyncCommand.open_position]
    · intro hd
      rw [hdt] at hd
      exact absurd hd (by simp)
  · refine ⟨?_, ?_, ?_⟩
    · intro _ cmd hc
      rw [hcmd] at hc
      obtain rfl : SyncCommand.close_position r.position_id ts = cmd := by
        simpa using hc
      simp [SyncCommand.close_position]
    · intro hoff
      rw [hflag] at hoff
      exact absurd hoff (by simp)
    · intro hd
      rw [hdt] at hd
      exact absurd hd (by simp)
  · refine ⟨?_, ?_, ?_⟩
    · intro _ cmd hc
      rw [hcmd] at hc
      obtain rfl :
          SyncCommand.modify_sl_tp r.position_id (some m.sl) (some m.tp) ts
            = cmd := by
        simpa using hc
      simp [SyncCommand.modify_sl_tp]
    · intro _ cmd hc
      rw [hcmd] at hc
      obtain rfl :
          SyncCommand.modify_sl_tp r.position_id (some m.sl) (some m.tp) ts
            = cmd := by
        simpa using hc
      simp [SyncCommand.modify_sl_tp]
    · intro hd
      rcases hdt with h | h <;> rw [h] at hd <;> exact absurd hd (by simp)

/-- Sample master position (SL set, TP unset) shared by the C9/C10
witnesses. -/
def w10_master : MasterPosition :=
  { position_id := 42
    symbol := "EURUSD"
    direction := "buy"
    volume := 1
    open_price := 1
    sl := 2
    tp := 0
    sl_distance_points := none
    tp_distance_points := none }

/-- Sample receiver position mapped to `w10_master` with a diverging
SL. -/
def w10_recv : ReceiverPosition :=
  { position_id := 7
    master_position_id := 42
    symbol := "EURUSD"
    direction := "buy"
    volume := 1
    sl := some 1
    tp := none }

/-- An SL-mismatch discrepancy carrying both positions. -/
def w9_sl_d : PositionDiscrepancy :=
  { discrepancy_type := .SLMismatch
    master_position := some w10_master
    receiver_id := "rx"
    receiver_position := some w10_recv
    suggested_action := "x" }

/-- A direction-mismatch discrepancy carrying both positions. -/
def w9_dir_d : PositionDiscrepancy :=
  { discrepancy_type := .DirectionMismatch
    master_position := some w10_master
    receiver_id := "rx"
    receiver_position := some w10_recv
    suggested_action := "y" }

/-- Witness for C9: under the default config (both auto flags false,
SL/TP sync on), an SL mismatch emits only a `modify_sl_tp` command —
which is neither `open` nor `close` — and a direction mismatch emits
nothing. -/
theorem C9_flags_gate_commands_witness :
    (ReconciliationConfig.default.auto_open_missing = false) ∧
    (ReconciliationConfig.default.auto_close_orphaned = false) ∧
    (handle_discrepancy_cmd w9_sl_d ReconciliationConfig.default "ts" =
      some (SyncCommand.modify_sl_tp 7 (some 2) (some 0) "ts")) ∧
    ((SyncCommand.modify_sl_tp 7 (some 2) (some 0) "ts").command_type ≠
      "open") ∧
    ((SyncCommand.modify_sl_tp 7 (some 2) (some 0) "ts").command_type ≠
      "close") ∧
    (handle_discrepancy_cmd w9_dir_d ReconciliationConfig.default "ts" =
      none) :=
  ⟨rfl, rfl, rfl,
   (C9_flags_gate_commands w9_sl_d ReconciliationConfig.default "ts").1
     rfl _ rfl,
   (C9_flags_gate_commands w9_sl_d ReconciliationConfig.default "ts").2.1
     rfl _ rfl,
   (C9_flags_gate_commands w9_dir_d ReconciliationConfig.default "ts").2.2
     rfl⟩

/-! ## C10 — zero master SL/TP means "not set", never a mismatch -/

theorem mem_discrepancies_for_master (rs : List ReceiverPosition)
    (rid : String) (mp : MasterPosition) (d : PositionDiscrepancy)
    (h : d ∈ discrepancies_for_master rs rid mp) :
    (d.discrepancy_type = .SLMismatch →
      d.master_position = some mp ∧ 0 < mp.sl) ∧
    (d.discrepancy_type = .TPMismatch →
      d.master_position = some mp ∧ 0 < mp.tp) := by
  unfold discrepancies_for_master at h
  split at h
  · simp only [List.mem_singleton] at h
    subst h
    constructor <;> intro hh <;> simp at hh
  · simp only [List.mem_append] at h
    rcases h with ((h | h) | h) | h
    · split at h
      · simp only [List.mem_singleton] at h
        subst h
        constructor <;> intro hh <;> simp at hh
      · simp at h
    · split at h
      · simp only [List.mem_singleton] at h
        subst h
        constructor <;> intro hh <;> simp at hh
      · simp at h
    · split at h
      · rename_i h0
        split at h
        · split at h
          · simp only [List.mem_singleton] at h
            subst h
            exact ⟨fun _ => ⟨rfl, h0⟩, fun hh => by simp at hh⟩
          · simp at h
        · simp only [List.mem_singleton] at h
          subst h
          exact ⟨fun _ => ⟨rfl, h0⟩, fun hh => by simp at hh⟩
      · simp at h
    · split at h
      · rename_i h0
        split at h
        · split at h
          · simp only [List.mem_singleton] at h
            subst h
            exact ⟨fun hh => by simp at hh, fun _ => ⟨rfl, h0⟩⟩
          · simp at h
        · simp only [List.mem_singleton] at h
          subst h
          exact ⟨fun hh => by simp at hh, fun _ => ⟨rfl, h0⟩⟩
      · simp at h

/-- C10: every SL-mismatch discrepancy produced by `find_discrepancies`
carries a master position with `sl > 0`, and every TP mismatch one with
`tp > 0`: a zero master SL/TP is treated as "not set" and never compared
against the 0.0001 tolerance, regardless of the receiver's values. -/
theorem C10_zero_sl_tp_never_mismatch (ms : List MasterPosition)
    (rs : List ReceiverPosition) (rid : String) (d : PositionDiscrepancy)
    (h : d ∈ find_discrepancies ms rs rid) :
    (d.discrepancy_type = .SLMismatch →
      ∃ mp, d.master_position = some mp ∧ 0 < mp.sl) ∧
    (d.discrepancy_type = .TPMismatch →
      ∃ mp, d.master_position = some mp ∧ 0 < mp.tp) := by
  unfold find_discrepancies at h
  rw [List.mem_append] at h
  rcases h with h | h
  · rw [List.mem_flatMap] at h
    rcases h with ⟨mp, _, hd⟩
    have hmp := mem_discrepancies_for_master rs rid mp d hd
    exact ⟨fun hh => ⟨mp, (hmp.1 hh).1, (hmp.1 hh).2⟩,
      fun hh => ⟨mp, (hmp.2 hh).1, (hmp.2 hh).2⟩⟩
  · rw [List.mem_map] at h
    rcases h with ⟨rp, _, rfl⟩
    constructor <;> intro hh <;> simp at hh

/-- The discrepancy that `find_discrepancies` produces for the C10
witness pair. -/
def w10_d : PositionDiscrepancy :=
  { discrepancy_type := .SLMismatch
    master_position := some w10_master
    receiver_id := "rx"
    receiver_position := some w10_recv
    suggested_action := "Update receiver SL from " ++ fmtF64 1 ++ " to "
      ++ fmtF64 2 }

/-- Witness for C10: a concrete master/receiver pair with diverging SL
produces exactly one SL-mismatch discrepancy, and the theorem yields its
positive master SL. -/
theorem C10_zero_sl_tp_never_mismatch_witness :
    (w10_d ∈ find_discrepancies [w10_master] [w10_recv] "rx") ∧
    (w10_d.discrepancy_type = .SLMismatch) ∧
    (∃ mp, w10_d.master_position = some mp ∧ 0 < mp.sl) := by
  have hmem : w10_d ∈ find_discrepancies [w10_master] [w10_recv] "rx" := by
    unfold find_discrepancies discrepancies_for_master
    norm_num [w10_master, w10_recv, w10_d, SL_TP_TOLERANCE, List.find?]
  exact ⟨hmem, rfl,
    (C10_zero_sl_tp_never_mismatch [w10_master] [w10_recv] "rx" w10_d
      hmem).1 rfl⟩

end Saturn
